import Mathlib

/-!
Verification of cordova-paramedic's run coordinator and event poller.

This file gives a shallow embedding of the relevant parts of
`lib/paramedic.js`, `lib/appium/helpers/wdHelper.js` and
`lib/utils/utilities.js`, and proves the documented properties of the
completion race, the cleanup sequencing, and the event-polling policy.
Promises (the Q library) are embedded as explicit outcome values
(`QResult`) together with an execution trace (`Traced`), and listener
registration on the local server is embedded as a fold of a settle-once
step function over the sequence of delivered events.
-/

/-! ## Constants from lib/utils/utilities.js -/

/-- `utilities.ANDROID` (utilities.js line 217). -/
def utilities.ANDROID : String := "android"

/-- `utilities.IOS` (utilities.js line 218). -/
def utilities.IOS : String := "ios"

/-- `utilities.WINDOWS` (utilities.js line 219). -/
def utilities.WINDOWS : String := "windows"

/-- `utilities.BROWSER` (utilities.js line 220). -/
def utilities.BROWSER : String := "browser"

/-- `utilities.TEST_PASSED` (utilities.js line 248). -/
def utilities.TEST_PASSED : Bool := true

/-- `utilities.TEST_FAILED` (utilities.js line 249). -/
def utilities.TEST_FAILED : Bool := false

/-- `INITIAL_CONNECTION_TIMEOUT` (paramedic.js line 42): 9 minutes in ms. -/
def INITIAL_CONNECTION_TIMEOUT : Nat := 540000

/-! ## The resolved run configuration

Snapshot of the `config` getters that `ParamedicRunner` consults.  Each
field mirrors one getter of the config object. -/

structure ParamedicConfig where
  /-- `config.getPlatformId()` -/
  platformId : String
  /-- `config.getAction()` -/
  action : String
  /-- `config.runMainTests()` -/
  runMainTests : Bool
  /-- `config.runAppiumTests()` -/
  runAppiumTests : Bool
  /-- `config.shouldUseSauce()` -/
  shouldUseSauce : Bool
  /-- `config.shouldCleanUpAfterRun()` -/
  shouldCleanUpAfterRun : Bool
  /-- `config.getTimeout()` (the global deadline, ms) -/
  timeout : Nat
  deriving Repr, DecidableEq

/-! ## Q promise outcomes

A settled Q promise either fulfilled with a value or rejected with an
error message.  Rejection carries the `message` string of the JS error. -/

inductive QResult (α : Type) where
  | fulfilled (v : α)
  | rejected (e : String)
  deriving Repr, DecidableEq

/-- `Q.all([a, b]).then(results => results[1])`: rejects when either input
rejects, otherwise yields the second value (paramedic.js lines 243-281). -/
def qAll2 {α : Type} (a : QResult Unit) (b : QResult α) : QResult α :=
  match a, b with
  | .rejected e, _ => .rejected e
  | .fulfilled _, .rejected e => .rejected e
  | .fulfilled _, .fulfilled v => .fulfilled v

/-! ## The reporting channel and waitForTests (paramedic.js lines 385-408)

`waitForTests` returns a promise settled by the first of: a `jasmineDone`
event, a `disconnect` event, or the initial-connection timer firing while
no device is connected.  A promise settles at most once: later calls to
resolve/reject are no-ops.  We embed the listener as a fold of a
settle-once step over the sequence of delivered events/timer firings. -/

/-- The `data.specResults` object of a `jasmineDone` payload. -/
structure SpecResults where
  specFailed : Nat
  deriving Repr, DecidableEq

/-- The payload of a `jasmineDone` event (`data` in paramedic.js line 397). -/
structure JasmineDonePayload where
  specResults : SpecResults
  deriving Repr, DecidableEq

/-- Events observable by the `waitForTests` promise: server events plus the
firing of the initial-connection `setTimeout` (paramedic.js line 391),
which carries the value of `this.server.isDeviceConnected()` at that
moment. -/
inductive ServerEvent where
  | jasmineDone (data : JasmineDonePayload)
  | disconnect
  | connectionCheck (deviceConnected : Bool)
  | deviceLog
  | deviceInfo
  deriving Repr, DecidableEq

/-- The settle state of the `waitForTests` promise. -/
inductive Settled where
  | pending
  | resolved (passed : Bool)
  | rejectedS (msg : String)
  deriving Repr, DecidableEq

/-- Error message built at paramedic.js line 390. -/
def waitForTestsConnectionMsg : String :=
  "waitForTests: Seems like device not connected to local server in "
    ++ toString (INITIAL_CONNECTION_TIMEOUT / 1000) ++ " secs"

/-- Rejection message of the `disconnect` listener (paramedic.js line 405). -/
def disconnectMsg : String := "Device is disconnected before passing the tests"

/-- One event delivered to the `waitForTests` promise.  A settled promise
ignores further resolve/reject calls; a pending one settles according to
paramedic.js lines 391-406: the timer rejects when no device is connected,
`jasmineDone` resolves with `data.specResults.specFailed === 0`, and
`disconnect` rejects. -/
def settleStep (s : Settled) (e : ServerEvent) : Settled :=
  match s with
  | .pending =>
    match e with
    | .jasmineDone data => .resolved (data.specResults.specFailed == 0)
    | .disconnect => .rejectedS disconnectMsg
    | .connectionCheck deviceConnected =>
        if deviceConnected then .pending else .rejectedS waitForTestsConnectionMsg
    | .deviceLog => .pending
    | .deviceInfo => .pending
  | s => s

/-- `ParamedicRunner.waitForTests`, as the settle state after a sequence of
delivered events (paramedic.js lines 385-408). -/
def ParamedicRunner.waitForTests (events : List ServerEvent) : Settled :=
  events.foldl settleStep .pending

/-! ## shouldWaitForTestResult and runTests -/

/-- `ParamedicRunner.shouldWaitForTestResult` (paramedic.js lines 443-446):
`action.indexOf(s) === 0` in JS says the string starts with `s`, embedded
here as a prefix test on the character sequences. -/
def ParamedicRunner.shouldWaitForTestResult (action : String) : Bool :=
  "run".data.isPrefixOf action.data || "emulate".data.isPrefixOf action.data

/-- Monadic bind on settled Q promises: `.then` on a rejection propagates
the rejection. -/
def qBind {α β : Type} (p : QResult α) (f : α → QResult β) : QResult β :=
  match p with
  | .fulfilled v => f v
  | .rejected e => .rejected e

/-- `ParamedicRunner.runTests` result combination (paramedic.js lines
360-383): after the main phase and the Appium phase both settle, the run
result is `isTestPassed === utilities.TEST_PASSED && isAppiumTestPassed ===
utilities.TEST_PASSED`. -/
def ParamedicRunner.runTests (mainPhase appiumPhase : QResult Bool) : QResult Bool :=
  qBind mainPhase (fun isTestPassed =>
    qBind appiumPhase (fun isAppiumTestPassed =>
      .fulfilled ((isTestPassed == utilities.TEST_PASSED)
        && (isAppiumTestPassed == utilities.TEST_PASSED))))

/-! ## The event poller (wdHelper.js lines 194-255)

`pollForEvents(driver, platform, skipBuster, windowOffset, retries)`:
after the optional alert dismissal, on non-iOS non-browser platforms it
switches to the window handle at index `windowOffset` (failing when the
index is out of range), then executes a client-side read of
`window._jasmineParamedicProxyCache`, and applies the result policy.  We
embed one traversal of the promise chain as a step function whose result
names the continuation the code takes (return, recurse, or throw). -/

/-- What the client-side `execute` of wdHelper.js lines 224-232 produced,
after the `JSON.parse` at line 235: `absent` is the `null` sentinel
returned when the cache global is undefined (the "wrong window" case),
`arr` a proper array, `nonArray` any other parsed value (shown by its JS
string form). -/
inductive CacheRead where
  | absent
  | arr (batch : List String)
  | nonArray (payload : String)
  deriving Repr, DecidableEq

/-- JS string coercion of the read result as used in the error message
concatenation of wdHelper.js line 250 (`null` prints as "null"). -/
def CacheRead.jsShow : CacheRead → String
  | .absent => "null"
  | .arr payload => String.intercalate "," payload
  | .nonArray payload => payload

/-- The error thrown at wdHelper.js line 219. -/
def windowNotFoundMsg : String := "Cannot find a window with the event cache."

/-- The error thrown at wdHelper.js line 250, embedding the raw unexpected
payload. -/
def cacheMissingMsg (r : CacheRead) : String :=
  "Cannot get the event cache: it doesn\x27t exist in the app. Got this instead: "
    ++ r.jsShow

/-- The base test page reloaded on a browser retry (wdHelper.js line 244). -/
def browserTestPage : String := "http://localhost:8000/cdvtests/index.html"

/-- The window-switch stage of the poll (wdHelper.js lines 209-223): a no-op
on iOS and browser (`.ok none`); otherwise the driver switches to
`windowHandles[windowOffset]`, throwing when the offset is not a valid
index. -/
def windowSwitch (platform : String) (windowOffset : Nat)
    (windowHandles : List String) : Except String (Option String) :=
  let isBrowser := platform == utilities.BROWSER
  let isIOS := platform == utilities.IOS
  if isIOS || isBrowser then .ok none
  else if h : windowOffset ≥ windowHandles.length then .error windowNotFoundMsg
  else .ok (some (windowHandles.get ⟨windowOffset, by omega⟩))

/-- The continuation one traversal of the `pollForEvents` chain takes. -/
inductive PollOutcome where
  /-- a proper (possibly empty) array is returned as-is -/
  | events (batch : List String)
  /-- browser retry: `driver.get(url)` then recurse with the same
  `windowOffset` and `retries - 1` (wdHelper.js lines 243-247) -/
  | reloadRetry (url : String) (windowOffset retries : Nat)
  /-- Android: recurse with `windowOffset + 1` (wdHelper.js line 253);
  `retries` is not passed, so the recursive call resets it to 2 -/
  | nextWindow (windowOffset : Nat)
  /-- a thrown error -/
  | failure (msg : String)
  deriving Repr, DecidableEq

/-- One traversal of `pollForEvents` (wdHelper.js lines 194-255) with
already-normalized arguments (`retries` defaults to 2 and `windowOffset`
to 0 at lines 199-200).  `read` is what the in-page cache read returned
when reached. -/
def pollForEvents (platform : String) (windowOffset retries : Nat)
    (windowHandles : List String) (read : CacheRead) : PollOutcome :=
  let isAndroid := platform == utilities.ANDROID
  let isBrowser := platform == utilities.BROWSER
  match windowSwitch platform windowOffset windowHandles with
  | .error e => .failure e
  | .ok _ =>
    match read with
    | .arr batch => .events batch
    | r =>
      if isBrowser && decide (retries > 0) then
        .reloadRetry browserTestPage windowOffset (retries - 1)
      else if !isAndroid then
        .failure (cacheMissingMsg r)
      else
        .nextWindow (windowOffset + 1)

/-! ## The run chain (paramedic.js lines 60-131)

`run()` is a Q chain: the phase body (project creation/preparation, server
start, `runTests`) under a `.timeout`, then a `.catch` that rethrows the
error wrapped in `new Error(...)`, then a `.fin` doing device-side
collection/uninstall/kill (or Sauce reporting, or nothing for `build`),
then a final `.fin` calling `cleanUpProject`.  We embed settled promises
together with the list of side-effecting cleanup steps they executed. -/

/-- Observable side-effecting steps of the run chain's cleanup. -/
inductive RunStep where
  /-- `this.paramedicSauceLabs.displaySauceDetails(...)` (line 111) -/
  | sauceDetails
  /-- `this.collectDeviceLogs()` (line 117) -/
  | collectLogs
  /-- `this.uninstallApp()` (line 118) -/
  | uninstallApp
  /-- `paramedicKill.kill()` inside `killEmulatorProcess` (line 475) -/
  | killEmulator
  /-- `this.server.cleanUp()` inside `cleanUpProject` (line 463) -/
  | serverCleanUp
  /-- `shell.rm('-rf', this.tempFolder.name)` inside `cleanUpProject` (line 467) -/
  | deleteTempProject
  deriving Repr, DecidableEq

/-- A settled promise together with the trace of cleanup steps executed
while producing it. -/
structure Traced (α : Type) where
  steps : List RunStep
  result : QResult α
  deriving Repr, DecidableEq

/-- `.timeout(ms, msg)` (paramedic.js line 95): when the deadline expires
first, the chain rejects with the timeout message; the in-flight body is
abandoned, not awaited (its already-performed effects remain). -/
def qTimeout {α : Type} (timedOut : Bool) (ms : Nat) (t : Traced α) : Traced α :=
  if timedOut then
    { steps := t.steps
      result := .rejected ("Timed out after waiting for " ++ toString ms ++ " ms.") }
  else t

/-- `.catch((error) => { ...; throw new Error(error); })` (paramedic.js
lines 96-100): a rejection is rethrown wrapped — `new Error(e)` on an
error stringifies it as `Error: <message>`. -/
def qCatchWrap {α : Type} (t : Traced α) : Traced α :=
  match t.result with
  | .fulfilled _ => t
  | .rejected e => { steps := t.steps, result := .rejected ("Error: " ++ e) }

/-- `.fin(callback)`: the callback runs whether the chain fulfilled or
rejected; the original outcome is preserved unless the callback itself
rejects. -/
def qFin {α : Type} (t : Traced α) (callback : Traced Unit) : Traced α :=
  { steps := t.steps ++ callback.steps
    result :=
      match callback.result with
      | .fulfilled _ => t.result
      | .rejected e => .rejected e }

/-- `.fail(() => { ... })` swallowing a rejection (paramedic.js line 119):
a rejected chain becomes fulfilled with the handler's value. -/
def qFail {α : Type} (t : Traced α) (handler : α) : Traced α :=
  match t.result with
  | .rejected _ => { steps := t.steps, result := .fulfilled handler }
  | .fulfilled _ => t

/-- Sequencing `a; b` of two effectful calls: `b` runs only when `a`
fulfilled. -/
def seqT {α β : Type} (a : Traced α) (b : Traced β) : Traced β :=
  match a.result with
  | .fulfilled _ => { steps := a.steps ++ b.steps, result := b.result }
  | .rejected e => { steps := a.steps, result := .rejected e }

/-- `ParamedicRunner.collectDeviceLogs` (paramedic.js lines 479-485):
a synchronous call into the log collector. -/
def ParamedicRunner.collectDeviceLogs : Traced Unit :=
  { steps := [.collectLogs], result := .fulfilled () }

/-- `ParamedicRunner.uninstallApp` (paramedic.js lines 487-491): the
uninstall promise, which may reject (`uninstallFails`). -/
def ParamedicRunner.uninstallApp (uninstallFails : Bool) : Traced Unit :=
  { steps := [.uninstallApp]
    result := if uninstallFails then .rejected "uninstall failed" else .fulfilled () }

/-- `ParamedicRunner.killEmulatorProcess` (paramedic.js lines 471-477):
kills only when `config.shouldCleanUpAfterRun()`. -/
def ParamedicRunner.killEmulatorProcess (shouldCleanUpAfterRun : Bool) : Traced Unit :=
  { steps := if shouldCleanUpAfterRun then [.killEmulator] else []
    result := .fulfilled () }

/-- `ParamedicRunner.cleanUpProject` (paramedic.js lines 462-469):
`this.server && this.server.cleanUp()`, then temp-project removal gated by
`config.shouldCleanUpAfterRun()`. -/
def ParamedicRunner.cleanUpProject (hasServer shouldCleanUpAfterRun : Bool) : Traced Unit :=
  { steps := (if hasServer then [.serverCleanUp] else [])
      ++ (if shouldCleanUpAfterRun then [.deleteTempProject] else [])
    result := .fulfilled () }

/-- The first `.fin` callback of `run` (paramedic.js lines 101-127): with
Sauce, only fetch and report session details; otherwise, unless the action
is `build`, collect device logs, then attempt uninstall with its failure
swallowed, then (`.fin`) kill the emulator process; with action `build`,
nothing. -/
def ParamedicRunner.deviceCleanup (cfg : ParamedicConfig) (uninstallFails : Bool) :
    Traced Unit :=
  if cfg.shouldUseSauce then
    { steps := [.sauceDetails], result := .fulfilled () }
  else if cfg.action != "build" then
    seqT ParamedicRunner.collectDeviceLogs
      (qFin (qFail (ParamedicRunner.uninstallApp uninstallFails) ())
        (ParamedicRunner.killEmulatorProcess cfg.shouldCleanUpAfterRun))
  else
    { steps := [], result := .fulfilled () }

/-- `ParamedicRunner.run` (paramedic.js lines 60-131) as a chain over an
abstract phase body (project prepare, server start, `runTests`): body
under the global `.timeout`, wrapped rethrow on rejection, then the two
unconditional `.fin` cleanup callbacks.  `timedOut` says whether the
global deadline expired before the body settled; `hasServer` whether
`this.server` was assigned (server started) before the chain left the
body. -/
def ParamedicRunner.run (cfg : ParamedicConfig) (uninstallFails timedOut hasServer : Bool)
    (body : Traced Bool) : Traced Bool :=
  qFin
    (qFin (qCatchWrap (qTimeout timedOut cfg.timeout body))
      (ParamedicRunner.deviceCleanup cfg uninstallFails))
    (ParamedicRunner.cleanUpProject hasServer cfg.shouldCleanUpAfterRun)

/-! ## runLocalTests (paramedic.js lines 222-292)

`runLocalTests` launches the platform CLI command and, in parallel
(`Q.all`), waits for the test result when appropriate; the overall value
is the second element of the pair.  On non-browser platforms the command
runs under `execPromise` and its failure rejects the pair; on browser the
command is spawned detached with `cp.exec` and the launch arm resolves
immediately, the process being killed in the final `.fin`. -/

/-- Modelled from the spec: `execPromise` (from `lib/utils`, not under
`src/`) — "the coordinator constructs a command line ... and either
executes it to completion (non-browser)", and a launch error (CLI process
fails) is fatal for the phase; the promise rejects exactly when the
command exits nonzero. -/
def execPromise (exitCode : Nat) : QResult Unit :=
  if exitCode == 0 then .fulfilled () else
    .rejected ("command exited with code " ++ toString exitCode)

/-- The launch arm of the `Q.all` pair (paramedic.js lines 244-256): on
non-browser platforms, `execPromise(command)`; on browser, `cp.exec`
spawns the process detached and the arm resolves at once, ignoring the
exit code. -/
def launchArm (platformId : String) (exitCode : Nat) : QResult Unit :=
  if platformId != utilities.BROWSER then execPromise exitCode
  else .fulfilled ()

/-- The waiting arm of the `Q.all` pair (paramedic.js lines 257-276): main
tests disabled reports `TEST_PASSED`; otherwise, when
`shouldWaitForTestResult()`, the arm settles with the outcome of the
connection-watchdog/result-listener race (`waitOutcome`); otherwise
`TEST_PASSED` immediately. -/
def waitArm (cfg : ParamedicConfig) (waitOutcome : QResult Bool) : QResult Bool :=
  if !cfg.runMainTests then .fulfilled utilities.TEST_PASSED
  else if ParamedicRunner.shouldWaitForTestResult cfg.action then waitOutcome
  else .fulfilled utilities.TEST_PASSED

/-- `ParamedicRunner.runLocalTests` (paramedic.js lines 222-292).
`waitOutcome` is the settled outcome of the completion race, consulted
only when the run waits for a test result. -/
def ParamedicRunner.runLocalTests (cfg : ParamedicConfig) (exitCode : Nat)
    (waitOutcome : QResult Bool) : QResult Bool :=
  if !cfg.runMainTests && cfg.platformId != utilities.ANDROID then
    .fulfilled utilities.TEST_PASSED
  else
    qAll2 (launchArm cfg.platformId exitCode) (waitArm cfg waitOutcome)

/-! ## runAppiumTests (paramedic.js lines 294-347) -/

/-- The resolved target device descriptor (`this.targetObj`): `target` is
the device name, `simId` the optional unique id; a JS-falsy `target` is
`none`. -/
structure TargetObj where
  target : Option String
  simId : Option String
  deriving Repr, DecidableEq

/-- `!this.targetObj || !this.targetObj.target` (paramedic.js line 315). -/
def noLocalTarget (targetObj : Option TargetObj) : Bool :=
  match targetObj with
  | none => true
  | some t => t.target.isNone

/-- `ParamedicRunner.runAppiumTests` (paramedic.js lines 294-347), up to
the delegated Appium phase itself: skip (reporting `TEST_PASSED`) when the
action is `build`, when Appium tests are not configured to run, when the
platform is neither android nor ios, or when the runner found no Appium
test files; but throw when running locally (`useSauce` false) with no
resolved target device — this check precedes the test-files check.
`appiumOutcome` is the outcome of the delegated
prepare/package/upload/`appiumRunner.runTests` chain. -/
def ParamedicRunner.runAppiumTests (cfg : ParamedicConfig) (useSauce : Bool)
    (targetObj : Option TargetObj) (testPathsEmpty : Bool)
    (appiumOutcome : QResult Bool) : QResult Bool :=
  if cfg.action == "build" then .fulfilled utilities.TEST_PASSED
  else if !cfg.runAppiumTests then .fulfilled utilities.TEST_PASSED
  else if cfg.platformId != utilities.ANDROID && cfg.platformId != utilities.IOS then
    .fulfilled utilities.TEST_PASSED
  else if !useSauce && noLocalTarget targetObj then
    .rejected "Cannot determine local device name for Appium"
  else if testPathsEmpty then .fulfilled utilities.TEST_PASSED
  else appiumOutcome

/-! ## Helper lemmas -/

/-- A settled promise absorbs every later event: resolve/reject calls on a
non-pending state are no-ops. -/
theorem foldl_settleStep_absorb (events : List ServerEvent) (s : Settled)
    (h : s ≠ .pending) : events.foldl settleStep s = s := by
  induction events with
  | nil => rfl
  | cons e rest ih =>
    have hs : settleStep s e = s := by
      cases s with
      | pending => exact absurd rfl h
      | resolved b => rfl
      | rejectedS m => rfl
    simpa [hs] using ih

/-- Claim C2: for every `jasmineDone` payload delivered while the wait is
still pending, the result listener resolves the main-test result as passed
if and only if `payload.specResults.specFailed` equals exactly 0, and as
failed for every `specFailed = N > 0`. -/
theorem jasmineDone_pass_iff_zero_failures
    (events : List ServerEvent) (data : JasmineDonePayload)
    (h : ParamedicRunner.waitForTests events = .pending) :
    ParamedicRunner.waitForTests (events ++ [.jasmineDone data])
      = .resolved (data.specResults.specFailed == 0)
    ∧ (ParamedicRunner.waitForTests (events ++ [.jasmineDone data])
        = .resolved true ↔ data.specResults.specFailed = 0)
    ∧ (∀ n : Nat, data.specResults.specFailed = n → 0 < n →
        ParamedicRunner.waitForTests (events ++ [.jasmineDone data])
          = .resolved false) := by
  have key : ParamedicRunner.waitForTests (events ++ [.jasmineDone data])
      = .resolved (data.specResults.specFailed == 0) := by
    unfold ParamedicRunner.waitForTests at h ⊢
    rw [List.foldl_append, h]
    rfl
  refine ⟨key, ?_, ?_⟩
  · rw [key]
    simp [Settled.resolved.injEq]
  · intro n hn hpos
    rw [key, hn]
    have : (n == 0) = false := by
      simp [Nat.pos_iff_ne_zero.mp hpos]
    rw [this]

/-- Witness for claim C2 at the empty prefix and a payload with one failed
spec: the wait resolves to a failed result. -/
theorem jasmineDone_pass_iff_zero_failures_witness :
    ParamedicRunner.waitForTests [ServerEvent.jasmineDone ⟨⟨1⟩⟩]
      = .resolved false :=
  (jasmineDone_pass_iff_zero_failures [] ⟨⟨1⟩⟩ rfl).2.2 1 rfl (by decide)

/-- Claim C4: a `disconnect` delivered strictly before `jasmineDone` (the
wait still pending) settles the wait with the Disconnected rejection; a
`disconnect` delivered after `jasmineDone` has settled the wait leaves the
resolved Passed/Failed result unchanged. -/
theorem disconnect_before_done_rejects_after_done_ignored
    (pre mid post : List ServerEvent) (data : JasmineDonePayload)
    (h : ParamedicRunner.waitForTests pre = .pending) :
    ParamedicRunner.waitForTests
        (pre ++ ServerEvent.disconnect :: (mid ++ ServerEvent.jasmineDone data :: post))
      = .rejectedS disconnectMsg
    ∧ ParamedicRunner.waitForTests
        (pre ++ ServerEvent.jasmineDone data :: (mid ++ ServerEvent.disconnect :: post))
      = .resolved (data.specResults.specFailed == 0) := by
  unfold ParamedicRunner.waitForTests at h ⊢
  constructor
  · rw [List.foldl_append, h, List.foldl_cons]
    exact foldl_settleStep_absorb _ _ (by simp [settleStep])
  · rw [List.foldl_append, h, List.foldl_cons]
    exact foldl_settleStep_absorb _ _ (by simp [settleStep])

/-- Witness for claim C4 with empty surrounding segments and a passing
payload: disconnect-first rejects, done-first resolves to passed. -/
theorem disconnect_before_done_rejects_after_done_ignored_witness :
    ParamedicRunner.waitForTests
        [ServerEvent.disconnect, ServerEvent.jasmineDone ⟨⟨0⟩⟩]
      = .rejectedS disconnectMsg
    ∧ ParamedicRunner.waitForTests
        [ServerEvent.jasmineDone ⟨⟨0⟩⟩, ServerEvent.disconnect]
      = .resolved true :=
  disconnect_before_done_rejects_after_done_ignored [] [] [] ⟨⟨0⟩⟩ rfl

/-- Claim C9: when both the main-test phase and the Appium phase settle
with a result, the overall run result is the logical AND of the two: the
run passes if and only if both phases individually passed. -/
theorem runTests_result_is_and (mainPassed appiumPassed : Bool) :
    ParamedicRunner.runTests (.fulfilled mainPassed) (.fulfilled appiumPassed)
      = .fulfilled (mainPassed && appiumPassed)
    ∧ (ParamedicRunner.runTests (.fulfilled mainPassed) (.fulfilled appiumPassed)
        = .fulfilled utilities.TEST_PASSED
       ↔ mainPassed = utilities.TEST_PASSED ∧ appiumPassed = utilities.TEST_PASSED) := by
  cases mainPassed <;> cases appiumPassed <;>
    simp [ParamedicRunner.runTests, qBind, utilities.TEST_PASSED]

/-- Claim C5 counterexample: on iOS (a platform that is not browser) an
absent event cache does not make the poll recurse with `windowOffset + 1`
— it throws the cache-missing error instead.  Only Android recurses. -/
theorem pollForEvents_ios_absent_throws_not_recurses :
    pollForEvents utilities.IOS 0 2 [] .absent = .failure (cacheMissingMsg .absent)
    ∧ pollForEvents utilities.IOS 0 2 [] .absent ≠ .nextWindow (0 + 1) := by
  have h : pollForEvents utilities.IOS 0 2 [] .absent
      = .failure (cacheMissingMsg .absent) := by rfl
  exact ⟨h, fun hk => by rw [h] at hk; exact PollOutcome.noConfusion hk⟩

/-- Claim C5 (amended): for every poll in which the event-cache read
returns the sentinel absent and the platform is android (with the window
switch having succeeded), `pollForEvents` recurses with `windowOffset + 1`
— for arbitrarily large `windowOffset`, the recursion itself imposing no
cap on its growth; on ios (not browser, not android) an absent cache
throws instead. -/
theorem pollForEvents_android_absent_next_window
    (windowOffset retries : Nat) (windowHandles : List String)
    (h : windowOffset < windowHandles.length) :
    pollForEvents utilities.ANDROID windowOffset retries windowHandles .absent
      = .nextWindow (windowOffset + 1)
    ∧ (∀ k : Nat, ∀ hs : List String, ∀ r : CacheRead,
        pollForEvents utilities.IOS k retries hs r ≠ .nextWindow (k + 1)) := by
  constructor
  · simp [pollForEvents, windowSwitch, utilities.ANDROID, utilities.IOS,
      utilities.BROWSER, Nat.not_le.mpr h]
  · intro k hs r hk
    rcases r with _ | batch | payload <;>
      simp [pollForEvents, windowSwitch, utilities.IOS, utilities.BROWSER,
        utilities.ANDROID] at hk

/-- Witness for claim C5 (amended): with one open window handle and an
absent cache at offset 0, the android poll recurses to window 1. -/
theorem pollForEvents_android_absent_next_window_witness :
    pollForEvents utilities.ANDROID 0 2 ["CDVWebViewWindow"] .absent
      = .nextWindow 1 :=
  (pollForEvents_android_absent_next_window 0 2 ["CDVWebViewWindow"] (by decide)).1

/-- Claim C6: on the browser platform an absent event cache with
`retries > 0` reloads the base test page and retries the whole poll with
`retries - 1` and the same `windowOffset`; with `retries = 0` the poll
fails with an error that embeds the raw unexpected payload. -/
theorem pollForEvents_browser_retry_policy
    (windowOffset retries : Nat) (windowHandles : List String) :
    (0 < retries →
      pollForEvents utilities.BROWSER windowOffset retries windowHandles .absent
        = .reloadRetry browserTestPage windowOffset (retries - 1))
    ∧ pollForEvents utilities.BROWSER windowOffset 0 windowHandles .absent
        = .failure (cacheMissingMsg .absent)
    ∧ (∀ payload : String,
        pollForEvents utilities.BROWSER windowOffset 0 windowHandles (.nonArray payload)
          = .failure (cacheMissingMsg (.nonArray payload))
        ∧ cacheMissingMsg (.nonArray payload)
          = "Cannot get the event cache: it doesn\x27t exist in the app. Got this instead: "
              ++ payload) := by
  refine ⟨fun h => ?_, ?_, fun payload => ⟨?_, rfl⟩⟩
  · simp [pollForEvents, windowSwitch, utilities.BROWSER, utilities.IOS,
      utilities.ANDROID, h]
  · simp [pollForEvents, windowSwitch, utilities.BROWSER, utilities.IOS,
      utilities.ANDROID]
  · simp [pollForEvents, windowSwitch, utilities.BROWSER, utilities.IOS,
      utilities.ANDROID]

/-- Witness for claim C6: a browser poll with the default two retries and
an absent cache reloads the base page, keeping offset 0 with one retry
left. -/
theorem pollForEvents_browser_retry_policy_witness :
    pollForEvents utilities.BROWSER 0 2 [] .absent
      = .reloadRetry browserTestPage 0 1 :=
  (pollForEvents_browser_retry_policy 0 2 []).1 (by decide)

/-- Claim C7: on android the poll switches to the window handle at index
`windowOffset` before reading the event cache, and when `windowOffset` is
not a valid index into the handle list it fails with the protocol error
"Cannot find a window with the event cache." rather than recursing to a
further offset. -/
theorem pollForEvents_android_window_switch_bound
    (windowOffset retries : Nat) (windowHandles : List String) (read : CacheRead) :
    (∀ h : windowOffset < windowHandles.length,
      windowSwitch utilities.ANDROID windowOffset windowHandles
        = .ok (some (windowHandles.get ⟨windowOffset, h⟩)))
    ∧ (windowOffset ≥ windowHandles.length →
        pollForEvents utilities.ANDROID windowOffset retries windowHandles read
          = .failure windowNotFoundMsg
        ∧ ∀ k : Nat,
            pollForEvents utilities.ANDROID windowOffset retries windowHandles read
              ≠ .nextWindow k) := by
  constructor
  · intro h
    simp [windowSwitch, utilities.ANDROID, utilities.IOS, utilities.BROWSER,
      Nat.not_le.mpr h]
  · intro h
    have hfail : pollForEvents utilities.ANDROID windowOffset retries windowHandles read
        = .failure windowNotFoundMsg := by
      simp [pollForEvents, windowSwitch, utilities.ANDROID, utilities.IOS,
        utilities.BROWSER, h]
    exact ⟨hfail, fun k hk => by rw [hfail] at hk; exact PollOutcome.noConfusion hk⟩

/-- Witness for claim C7: with a single open window, offset 0 switches to
that window, and offset 1 is out of range and fails with the protocol
error. -/
theorem pollForEvents_android_window_switch_bound_witness :
    windowSwitch utilities.ANDROID 0 ["CDVWebViewWindow"]
      = .ok (some "CDVWebViewWindow")
    ∧ pollForEvents utilities.ANDROID 1 2 ["CDVWebViewWindow"] .absent
      = .failure windowNotFoundMsg :=
  ⟨(pollForEvents_android_window_switch_bound 0 2 ["CDVWebViewWindow"] .absent).1
      (by decide),
   ((pollForEvents_android_window_switch_bound 1 2 ["CDVWebViewWindow"] .absent).2
      (by decide)).1⟩

/-- `.fin` appends the callback's steps after the chain's. -/
theorem qFin_steps {α : Type} (t : Traced α) (cb : Traced Unit) :
    (qFin t cb).steps = t.steps ++ cb.steps := rfl

/-- The catch-and-rethrow stage performs no cleanup steps. -/
theorem qCatchWrap_steps {α : Type} (t : Traced α) : (qCatchWrap t).steps = t.steps := by
  rcases t with ⟨steps, result⟩; cases result <;> rfl

/-- The timeout stage performs no cleanup steps. -/
theorem qTimeout_steps {α : Type} (b : Bool) (ms : Nat) (t : Traced α) :
    (qTimeout b ms t).steps = t.steps := by
  cases b <;> rfl

/-- A `.fin` whose callback fulfills preserves the chain's outcome. -/
theorem qFin_result {α : Type} (t : Traced α) (cb : Traced Unit)
    (h : cb.result = .fulfilled ()) : (qFin t cb).result = t.result := by
  simp [qFin, h]

/-- The device-side cleanup callback always fulfills: log collection is
fire-and-forget, an uninstall rejection is swallowed by the `.fail`
handler, and the emulator kill is synchronous. -/
theorem deviceCleanup_result_fulfilled (cfg : ParamedicConfig) (u : Bool) :
    (ParamedicRunner.deviceCleanup cfg u).result = .fulfilled () := by
  unfold ParamedicRunner.deviceCleanup
  split
  · rfl
  · split
    · cases u <;> rfl
    · rfl

/-- Claim C1: whatever the phase chain does — fulfill, reject, or hit the
global timeout — both cleanup callbacks execute, exactly once each, their
steps appended exactly once after the body's; the run fulfills with the
body's boolean when the body fulfilled in time, and otherwise rejects with
the wrapped (`new Error(...)`) error only after that cleanup has been
appended to the trace. -/
theorem run_cleanup_unconditional_and_wrapped
    (cfg : ParamedicConfig) (uninstallFails timedOut hasServer : Bool)
    (body : Traced Bool) :
    (ParamedicRunner.run cfg uninstallFails timedOut hasServer body).steps
      = body.steps ++ (ParamedicRunner.deviceCleanup cfg uninstallFails).steps
          ++ (ParamedicRunner.cleanUpProject hasServer cfg.shouldCleanUpAfterRun).steps
    ∧ (timedOut = false → ∀ v : Bool, body.result = .fulfilled v →
        (ParamedicRunner.run cfg uninstallFails timedOut hasServer body).result
          = .fulfilled v)
    ∧ (timedOut = false → ∀ e : String, body.result = .rejected e →
        (ParamedicRunner.run cfg uninstallFails timedOut hasServer body).result
          = .rejected ("Error: " ++ e))
    ∧ (timedOut = true →
        (ParamedicRunner.run cfg uninstallFails timedOut hasServer body).result
          = .rejected ("Error: " ++ ("Timed out after waiting for "
              ++ toString cfg.timeout ++ " ms."))) := by
  refine ⟨?_, ?_, ?_, ?_⟩
  · simp [ParamedicRunner.run, qFin_steps, qCatchWrap_steps, qTimeout_steps]
  · rintro rfl v hb
    unfold ParamedicRunner.run
    rw [qFin_result _ _ rfl,
      qFin_result _ _ (deviceCleanup_result_fulfilled cfg uninstallFails)]
    simp [qTimeout, qCatchWrap, hb]
  · rintro rfl e hb
    unfold ParamedicRunner.run
    rw [qFin_result _ _ rfl,
      qFin_result _ _ (deviceCleanup_result_fulfilled cfg uninstallFails)]
    simp [qTimeout, qCatchWrap, hb]
  · rintro rfl
    unfold ParamedicRunner.run
    rw [qFin_result _ _ rfl,
      qFin_result _ _ (deviceCleanup_result_fulfilled cfg uninstallFails)]
    simp [qTimeout, qCatchWrap]

/-- Witness for claim C1: a rejected phase body under a no-sauce run
config yields a run whose trace ends with the two cleanup segments and
whose result is the wrapped error. -/
theorem run_cleanup_unconditional_and_wrapped_witness :
    (ParamedicRunner.run
        { platformId := "android", action := "run", runMainTests := true,
          runAppiumTests := true, shouldUseSauce := false,
          shouldCleanUpAfterRun := true, timeout := 480000 }
        false false true { steps := [], result := .rejected "boom" }).result
      = .rejected ("Error: " ++ "boom") :=
  (run_cleanup_unconditional_and_wrapped
      { platformId := "android", action := "run", runMainTests := true,
        runAppiumTests := true, shouldUseSauce := false,
        shouldCleanUpAfterRun := true, timeout := 480000 }
      false false true { steps := [], result := .rejected "boom" }).2.2.1
    rfl "boom" rfl

/-- Claim C8: in the non-build, non-Sauce cleanup, device-log collection
runs first, the uninstall attempt follows with any rejection swallowed,
the emulator kill follows even when uninstall failed (present exactly when
the clean-up-after-run flag is set), and the temp-project deletion is the
final step of the run's trace. -/
theorem cleanup_sequence_order
    (cfg : ParamedicConfig) (uninstallFails timedOut hasServer : Bool)
    (body : Traced Bool)
    (hsauce : cfg.shouldUseSauce = false) (haction : cfg.action ≠ "build") :
    (ParamedicRunner.deviceCleanup cfg uninstallFails).steps
      = [.collectLogs, .uninstallApp]
          ++ (if cfg.shouldCleanUpAfterRun then [.killEmulator] else [])
    ∧ (ParamedicRunner.deviceCleanup cfg uninstallFails).result = .fulfilled ()
    ∧ (ParamedicRunner.deviceCleanup cfg true).steps
        = (ParamedicRunner.deviceCleanup cfg false).steps
    ∧ (ParamedicRunner.run cfg uninstallFails timedOut hasServer body).steps
        = body.steps
            ++ ([.collectLogs, .uninstallApp]
                ++ (if cfg.shouldCleanUpAfterRun then [.killEmulator] else []))
            ++ ((if hasServer then [.serverCleanUp] else [])
                ++ (if cfg.shouldCleanUpAfterRun then [.deleteTempProject] else []))
    ∧ (cfg.shouldCleanUpAfterRun = true →
        (ParamedicRunner.run cfg uninstallFails timedOut hasServer body).steps.getLast?
          = some .deleteTempProject) := by
  have hdc : ∀ u : Bool, (ParamedicRunner.deviceCleanup cfg u).steps
      = [.collectLogs, .uninstallApp]
          ++ (if cfg.shouldCleanUpAfterRun then [.killEmulator] else []) := by
    intro u
    unfold ParamedicRunner.deviceCleanup
    simp [hsauce, bne_iff_ne, haction]
    cases u <;> simp [seqT, qFin, qFail, ParamedicRunner.collectDeviceLogs,
      ParamedicRunner.uninstallApp, ParamedicRunner.killEmulatorProcess]
  have hrun : (ParamedicRunner.run cfg uninstallFails timedOut hasServer body).steps
      = body.steps
          ++ ([.collectLogs, .uninstallApp]
              ++ (if cfg.shouldCleanUpAfterRun then [.killEmulator] else []))
          ++ ((if hasServer then [.serverCleanUp] else [])
              ++ (if cfg.shouldCleanUpAfterRun then [.deleteTempProject] else [])) := by
    simp [ParamedicRunner.run, qFin_steps, qCatchWrap_steps, qTimeout_steps,
      hdc uninstallFails, ParamedicRunner.cleanUpProject]
  refine ⟨hdc uninstallFails, deviceCleanup_result_fulfilled cfg uninstallFails,
    (hdc true).trans (hdc false).symm, hrun, ?_⟩
  intro hflag
  rw [hrun, hflag]
  simp [← List.append_assoc, List.getLast?_concat]

/-- Witness for claim C8: a concrete non-build, non-Sauce run with the
clean-up flag set has the cleanup trace in the documented order, ending
with the temp-project deletion. -/
theorem cleanup_sequence_order_witness :
    (ParamedicRunner.deviceCleanup
        { platformId := "android", action := "run", runMainTests := true,
          runAppiumTests := true, shouldUseSauce := false,
          shouldCleanUpAfterRun := true, timeout := 480000 } true).steps
      = [.collectLogs, .uninstallApp] ++ [.killEmulator]
    ∧ (ParamedicRunner.run
        { platformId := "android", action := "run", runMainTests := true,
          runAppiumTests := true, shouldUseSauce := false,
          shouldCleanUpAfterRun := true, timeout := 480000 }
        true false true { steps := [], result := .fulfilled true }).steps.getLast?
      = some .deleteTempProject := by
  have h := cleanup_sequence_order
    { platformId := "android", action := "run", runMainTests := true,
      runAppiumTests := true, shouldUseSauce := false,
      shouldCleanUpAfterRun := true, timeout := 480000 }
    true false true { steps := [], result := .fulfilled true }
    rfl (by decide)
  exact ⟨h.1, h.2.2.2.2 rfl⟩

/-- Claim C3 counterexample: on the browser platform with action `build`,
the launch command is spawned detached and its exit code is never
consulted — exit code 1 still yields a passed run, refuting "the run
result is passed if and only if the launch command exits with code
zero" for every run with action `build`. -/
theorem build_browser_exit_code_ignored :
    ParamedicRunner.runLocalTests
        { platformId := "browser", action := "build", runMainTests := true,
          runAppiumTests := true, shouldUseSauce := true,
          shouldCleanUpAfterRun := true, timeout := 480000 } 1 (.fulfilled true)
      = .fulfilled utilities.TEST_PASSED
    ∧ (1 : Nat) ≠ 0 := by
  exact ⟨by decide, by decide⟩

/-- Claim C3 (amended): for every run with action `build` the completion
race is never started — `shouldWaitForTestResult` is false exactly when
the action starts with neither `run` nor `emulate`, and the local-test
result does not depend on the race's outcome — and, when the main-test
path actually launches the command, the result is passed iff the launch
command exits zero on non-browser platforms, while on browser the command
is spawned detached and the run reports passed regardless of its exit
code. -/
theorem build_action_skips_race
    (cfg : ParamedicConfig) (exitCode : Nat) (w w2 : QResult Bool)
    (ha : cfg.action = "build") :
    ParamedicRunner.shouldWaitForTestResult cfg.action = false
    ∧ (∀ action : String, ParamedicRunner.shouldWaitForTestResult action = false ↔
        ¬ ("run".data <+: action.data) ∧ ¬ ("emulate".data <+: action.data))
    ∧ ParamedicRunner.runLocalTests cfg exitCode w
        = ParamedicRunner.runLocalTests cfg exitCode w2
    ∧ ((!cfg.runMainTests && cfg.platformId != utilities.ANDROID) = false →
        cfg.platformId ≠ utilities.BROWSER →
        (ParamedicRunner.runLocalTests cfg exitCode w
            = .fulfilled utilities.TEST_PASSED ↔ exitCode = 0))
    ∧ ((!cfg.runMainTests && cfg.platformId != utilities.ANDROID) = false →
        cfg.platformId = utilities.BROWSER →
        ParamedicRunner.runLocalTests cfg exitCode w
          = .fulfilled utilities.TEST_PASSED) := by
  have hwait : ∀ v : QResult Bool, waitArm cfg v = .fulfilled utilities.TEST_PASSED := by
    intro v
    cases hrm : cfg.runMainTests <;>
      simp [waitArm, hrm, ha,
        (show ParamedicRunner.shouldWaitForTestResult "build" = false by decide)]
  refine ⟨?_, ?_, ?_, ?_, ?_⟩
  · rw [ha]; decide
  · intro action
    simp [ParamedicRunner.shouldWaitForTestResult, Bool.or_eq_false_iff,
      ← List.isPrefixOf_iff_prefix, Bool.not_eq_true]
  · simp [ParamedicRunner.runLocalTests, hwait]
  · intro hmain hbrowser
    by_cases he : exitCode = 0 <;>
      simp [ParamedicRunner.runLocalTests, hmain, hwait, launchArm, execPromise,
        bne_iff_ne, hbrowser, he, qAll2, utilities.TEST_PASSED]
  · intro hmain hbrowser
    simp [ParamedicRunner.runLocalTests, hmain, hwait, launchArm, hbrowser, qAll2]

/-- Witness for claim C3 (amended) on an android build run: exit code 0
passes and the race outcome is irrelevant. -/
theorem build_action_skips_race_witness :
    ParamedicRunner.runLocalTests
        { platformId := "android", action := "build", runMainTests := true,
          runAppiumTests := true, shouldUseSauce := false,
          shouldCleanUpAfterRun := true, timeout := 480000 } 0 (.fulfilled false)
      = .fulfilled utilities.TEST_PASSED :=
  ((build_action_skips_race
      { platformId := "android", action := "build", runMainTests := true,
        runAppiumTests := true, shouldUseSauce := false,
        shouldCleanUpAfterRun := true, timeout := 480000 }
      0 (.fulfilled false) (.fulfilled true) rfl).2.2.2.1
    (by decide) (by decide)).mpr rfl

/-- Claim C10: `runAppiumTests` reports `TEST_PASSED` whenever the Appium
phase is skipped — action `build`, Appium tests not configured, platform
neither android nor ios, or (with a usable target) no Appium test files
found — but a local run (not on the remote device farm) that reaches the
target check with no resolved target device throws instead of skipping. -/
theorem appium_skip_reports_passed
    (cfg : ParamedicConfig) (useSauce : Bool) (targetObj : Option TargetObj)
    (testPathsEmpty : Bool) (appiumOutcome : QResult Bool) :
    (cfg.action = "build" ∨ cfg.runAppiumTests = false
        ∨ (cfg.platformId ≠ utilities.ANDROID ∧ cfg.platformId ≠ utilities.IOS) →
      ParamedicRunner.runAppiumTests cfg useSauce targetObj testPathsEmpty appiumOutcome
        = .fulfilled utilities.TEST_PASSED)
    ∧ (cfg.action ≠ "build" → cfg.runAppiumTests = true →
        (cfg.platformId = utilities.ANDROID ∨ cfg.platformId = utilities.IOS) →
        useSauce = false → noLocalTarget targetObj = true →
        ParamedicRunner.runAppiumTests cfg useSauce targetObj testPathsEmpty appiumOutcome
          = .rejected "Cannot determine local device name for Appium")
    ∧ (cfg.action ≠ "build" → cfg.runAppiumTests = true →
        (cfg.platformId = utilities.ANDROID ∨ cfg.platformId = utilities.IOS) →
        (useSauce = true ∨ noLocalTarget targetObj = false) →
        testPathsEmpty = true →
        ParamedicRunner.runAppiumTests cfg useSauce targetObj testPathsEmpty appiumOutcome
          = .fulfilled utilities.TEST_PASSED) := by
  refine ⟨?_, ?_, ?_⟩
  · rintro (hb | hf | ⟨hna, hni⟩)
    · simp [ParamedicRunner.runAppiumTests, hb]
    · by_cases hb : cfg.action = "build" <;>
        simp [ParamedicRunner.runAppiumTests, hb, hf]
    · by_cases hb : cfg.action = "build" <;>
        by_cases hf : cfg.runAppiumTests <;>
        simp [ParamedicRunner.runAppiumTests, hb, hf, bne_iff_ne, hna, hni]
  · intro hb hf hplat hsauce htarget
    rcases hplat with hp | hp <;>
      simp [ParamedicRunner.runAppiumTests, hb, hf, hp, bne_iff_ne, hsauce, htarget,
        utilities.ANDROID, utilities.IOS]
  · intro hb hf hplat hsauce hpaths
    rcases hplat with hp | hp <;> rcases hsauce with hs | hs <;>
      simp [ParamedicRunner.runAppiumTests, hb, hf, hp, hs, bne_iff_ne, hpaths,
        utilities.ANDROID, utilities.IOS]

/-- Witness for claim C10: a local ios run with Appium tests configured
but no resolved target throws, while the same run with action `build`
skips and reports passed. -/
theorem appium_skip_reports_passed_witness :
    ParamedicRunner.runAppiumTests
        { platformId := "ios", action := "run", runMainTests := true,
          runAppiumTests := true, shouldUseSauce := false,
          shouldCleanUpAfterRun := true, timeout := 480000 }
        false none true (.fulfilled true)
      = .rejected "Cannot determine local device name for Appium"
    ∧ ParamedicRunner.runAppiumTests
        { platformId := "ios", action := "build", runMainTests := true,
          runAppiumTests := true, shouldUseSauce := false,
          shouldCleanUpAfterRun := true, timeout := 480000 }
        false none true (.fulfilled true)
      = .fulfilled utilities.TEST_PASSED :=
  ⟨(appium_skip_reports_passed
      { platformId := "ios", action := "run", runMainTests := true,
        runAppiumTests := true, shouldUseSauce := false,
        shouldCleanUpAfterRun := true, timeout := 480000 }
      false none true (.fulfilled true)).2.1
    (by decide) rfl (Or.inr rfl) rfl rfl,
   (appium_skip_reports_passed
      { platformId := "ios", action := "build", runMainTests := true,
        runAppiumTests := true, shouldUseSauce := false,
        shouldCleanUpAfterRun := true, timeout := 480000 }
      false none true (.fulfilled true)).1 (Or.inl rfl)⟩
